import Mathlib

/-!
# Checkerboard pose detector (`src/src/estimate_pose.cpp`)

A shallow embedding of the `PoseDetector` controller: the frame throttle at the head of
`imageCallback`, the detection step with its BOARD / CAMERA mode switch, the two gated
publishers, the replay callback `imageDummyCallback`, and the blocking on-demand query
`compute_pose`.

Conventions of the embedding.

* The member variables of `PoseDetector` become the fields of a structure of the same name;
  every member function becomes a function from state to state.
* Calls that leave the controller (transform broadcast, marker publication, pose file
  write, debug drawing, logging) are appended to the field `log`, in call order.
* The checkerboard detector `find`, the camera model and the image conversions are external:
  a `Frame` carries the answer `find` gives on it.
* `double` values are rationals and `mSkipCount` is an integer.
* `mFrameCount` is a fixed-width C++ integer. Its declaration is in `estimate_pose.h`, which
  is not part of `src/`, so its type (signedness and width) is a parameter of the
  controller, `mFrameCountType`; `++` wraps around at the largest value of the type.
-/

namespace CheckerboardDetection

/-! ## Values -/

/-- Three real components (a translation, a position, a scale). -/
structure Vec3 where
  x : ℚ
  y : ℚ
  z : ℚ
deriving DecidableEq

/-- Quaternion components in the order `quat(0) .. quat(3)` = `x, y, z, w`. -/
structure Quat where
  x : ℚ
  y : ℚ
  z : ℚ
  w : ℚ
deriving DecidableEq

/-- Cross product of two vectors. -/
def Vec3.cross (a b : Vec3) : Vec3 :=
  ⟨a.y * b.z - a.z * b.y, a.z * b.x - a.x * b.z, a.x * b.y - a.y * b.x⟩

/-- Componentwise negation. -/
def Vec3.neg (a : Vec3) : Vec3 := ⟨-a.x, -a.y, -a.z⟩

/-- Conjugate quaternion: the inverse rotation of a unit quaternion. -/
def Quat.conj (q : Quat) : Quat := ⟨-q.x, -q.y, -q.z, q.w⟩

/-- The identity rotation. -/
def Quat.identity : Quat := ⟨0, 0, 0, 1⟩

/-- Rotate `v` by the unit quaternion `q = (u, w)`: `v + 2 w (u × v) + 2 u × (u × v)`. -/
def Quat.rotate (q : Quat) (v : Vec3) : Vec3 :=
  let u : Vec3 := ⟨q.x, q.y, q.z⟩
  let c := u.cross v
  let d := u.cross c
  ⟨v.x + 2 * q.w * c.x + 2 * d.x, v.y + 2 * q.w * c.y + 2 * d.y, v.z + 2 * q.w * c.z + 2 * d.z⟩

/-- Modelled from the spec: the value type `V4R::PoseD`, whose declaration is not part of
`src/`. The spec describes it as a rigid transform with a translation of three components
and a rotation convertible to a unit quaternion of four components; the rotation is kept
here in its quaternion form. -/
structure PoseD where
  tvec : Vec3
  rot : Quat
deriving DecidableEq

namespace PoseD

/-- Accessor `x()`. -/
def x (p : PoseD) : ℚ := p.tvec.x

/-- Accessor `y()`. -/
def y (p : PoseD) : ℚ := p.tvec.y

/-- Accessor `z()`. -/
def z (p : PoseD) : ℚ := p.tvec.z

/-- Accessor `quaterion()` (spelled as in the source). -/
def quaterion (p : PoseD) : Quat := p.rot

/-- Modelled from the spec: `V4R::PoseD::inv`, not part of `src/`. The spec asks for the
inverse rigid motion: the rotation is inverted and the translation becomes `-(R⁻¹ t)`. -/
def inv (p : PoseD) : PoseD :=
  { tvec := (p.rot.conj.rotate p.tvec).neg, rot := p.rot.conj }

end PoseD

/-- A C++ integral type: its signedness and its width in bits. -/
structure IntType where
  isSigned : Bool
  bits : Nat
deriving DecidableEq

namespace IntType

/-- The type `int` (32 bits). -/
def int32 : IntType := ⟨true, 32⟩

/-- The type `unsigned int` (32 bits). -/
def uint32 : IntType := ⟨false, 32⟩

/-- The largest value of the type. -/
def maxValue (t : IntType) : Int :=
  if t.isSigned then ((2 ^ (t.bits - 1) : Nat) : Int) - 1 else ((2 ^ t.bits : Nat) : Int) - 1

/-- The smallest value of the type. -/
def minValue (t : IntType) : Int :=
  if t.isSigned then -((2 ^ (t.bits - 1) : Nat) : Int) else 0

/-- The operator `++` on a value of the type. Below the largest value it adds one. At the
largest value it gives the smallest one: this is arithmetic modulo `2 ^ bits` for an
unsigned type. For a signed type C++ leaves the result undefined, and the wrap-around of
two's complement hardware is taken; no theorem below relies on it except to show that the
counter cannot go one higher. -/
def next (t : IntType) (v : Int) : Int :=
  if v = t.maxValue then t.minValue else v + 1

end IntType

/-- The enumeration behind `mPose2Compute`. -/
inductive Pose2Compute
  | BOARD
  | CAMERA
deriving DecidableEq

/-- The cases `imageCallback` distinguishes on `image_msg->encoding`: the four Bayer
encodings it converts, any other encoding containing "bayer", and encodings without
"bayer". -/
inductive Encoding
  | BAYER_RGGB8
  | BAYER_BGGR8
  | BAYER_GBRG8
  | BAYER_GRBG8
  | bayerUnsupported
  | notBayer
deriving DecidableEq

/-- One delivery of the camera subscription: an image message with its camera info. -/
structure Frame where
  /-- Field `image_msg->header.stamp`. -/
  stamp : Nat
  /-- Field `image_msg->encoding`, classified. -/
  encoding : Encoding
  /-- Field `info_msg->header.frame_id`. -/
  info_frame_id : String
  /-- What `find` answers when it is run on this frame: `none` for `false`, `some pose`
  for `true` with the rotation and translation it wrote into `pose`. -/
  found : Option PoseD
deriving DecidableEq

/-- The marker message built by `publishMarker` (constant fields left out). -/
structure Marker where
  frame_id : String
  stamp : Nat
  ns : String
  position : Vec3
  orientation : Quat
  scale : Vec3
deriving DecidableEq

/-- Calls that leave the controller. -/
inductive Effect
  /-- Call `mTF_broadcaster.sendTransform`. -/
  | sendTransform (rotation : Quat) (origin : Vec3) (stamp : Nat) (base_frame frame_id : String)
  /-- Call `mMarker_pub.publish`. -/
  | marker (m : Marker)
  /-- Call `mPose.write`. -/
  | writePose (file base_frame frame_id : String) (pose : PoseD)
  /-- Call `drawBoard`. -/
  | drawBoard
  /-- Call `drawSystem` with the stored pose. -/
  | drawSystem (pose : PoseD)
  /-- Calls `cv::imshow` and `cv::waitKey`. -/
  | imshow (window : String)
  /-- Call `cv::namedWindow`. -/
  | namedWindow (window : String)
  /-- Call `nh.advertise` for the marker topic. -/
  | advertiseMarker
  /-- Call `advertiseService`. -/
  | advertiseService (name : String)
  /-- The `ROS_ERROR` for an unsupported Bayer encoding. -/
  | unsupportedEncoding
deriving DecidableEq

/-- True on the two effects that reach the export sinks (transform broadcast, marker). -/
def Effect.isPublication : Effect → Bool
  | .sendTransform _ _ _ _ _ => true
  | .marker _ => true
  | _ => false

/-- The member function a camera subscription delivers frames to. -/
inductive Callback
  | imageCallback
  | imageDummyCallback
deriving DecidableEq

/-- The file system as seen by `mPose.read(path)`: the pose held after the call, given the
path and the pose held before it. -/
structure Env where
  read : String → PoseD → PoseD

/-! ## The controller -/

/-- The members of `PoseDetector` that the controller logic reads or writes.
`mCameraSubscriber` is `none` for a default-constructed (or shut down) subscriber, whose
`getInfoTopic()` is the empty string, and names the registered callback otherwise.
`mUseSubPixel` holds the flag `initCheckerboard` hands to `init` of the base class.
`mFrameCountType` is not a member: it is the integral type that the header, which is not
part of `src/`, declares for `mFrameCount`. `log` is not a member either: it collects, in
call order, the calls that leave the controller. -/
structure PoseDetector where
  mImageTopic : String
  mWindowName : String
  mPublishTFLink : Bool
  mPublishRVizMarker : Bool
  mReadPoseFromFile : Bool
  mValidPose : Bool
  mDrawDebugImage : Bool
  mPose2Compute : Pose2Compute
  mPublishLastSuccess : Bool
  mSkipCount : Int
  mFrameCount : Int
  mFrameCountType : IntType
  mSuccessfulDetection : Bool
  mCheckerboard : Int × Int
  mCheckerboardBox : ℚ × ℚ
  mUseSubPixel : Bool
  mBase_frame : String
  mFrame_id : String
  mMarkerNS : String
  mPoseFile : String
  mTime : Nat
  mPose : PoseD
  mCameraSubscriber : Option Callback
  log : List Effect
deriving DecidableEq

/-- The response of the `GetPose` service. -/
structure Response where
  position : Vec3
  orientation : Quat
deriving DecidableEq

namespace PoseDetector

/-- The constructor. `pose0` is the default-constructed `mPose` and `countType` the type
declared for `mFrameCount`. -/
def new (image_topic : String) (publish_tf_link publish_rviz_marker read_pose_file
    drawDebugImage : Bool) (pose0 : PoseD) (countType : IntType) : PoseDetector :=
  { mImageTopic := image_topic
    mWindowName := "Debug_" ++ image_topic
    mPublishTFLink := publish_tf_link
    mPublishRVizMarker := publish_rviz_marker
    mReadPoseFromFile := read_pose_file
    mValidPose := false
    mDrawDebugImage := drawDebugImage
    mPose2Compute := .BOARD
    mPublishLastSuccess := false
    mSkipCount := 1
    mFrameCount := 0
    mFrameCountType := countType
    mSuccessfulDetection := false
    mCheckerboard := (0, 0)
    mCheckerboardBox := (0, 0)
    mUseSubPixel := false
    mBase_frame := ""
    mFrame_id := ""
    mMarkerNS := ""
    mPoseFile := ""
    mTime := 0
    mPose := pose0
    mCameraSubscriber := none
    log :=
      (if drawDebugImage && !read_pose_file then [Effect.namedWindow ("Debug_" ++ image_topic)]
        else []) ++
      (if publish_rviz_marker then [Effect.advertiseMarker] else []) }

/-- Member `subscribe`. -/
def subscribe (env : Env) (s : PoseDetector) : PoseDetector :=
  if s.mReadPoseFromFile then
    { s with
      mCameraSubscriber := some .imageDummyCallback
      mPose := env.read s.mPoseFile s.mPose }
  else
    { s with mCameraSubscriber := some .imageCallback }

/-- Member `initCheckerboard`. -/
def initCheckerboard (s : PoseDetector) (checkerboard : Int × Int) (checkerboardbox : ℚ × ℚ)
    (use_sub_pixel publish_last_success : Bool) : PoseDetector :=
  { s with
    mCheckerboard := checkerboard
    mCheckerboardBox := checkerboardbox
    mUseSubPixel := use_sub_pixel
    mPublishLastSuccess := publish_last_success }

/-- Member `initLinks`. -/
def initLinks (s : PoseDetector) (base_frame frame_id : String) : PoseDetector :=
  { s with mBase_frame := base_frame, mFrame_id := frame_id }

/-- Member `initMarkerNS`. -/
def initMarkerNS (s : PoseDetector) (markerNS : String) : PoseDetector :=
  { s with mMarkerNS := markerNS }

/-- Member `initPoseFile`. -/
def initPoseFile (s : PoseDetector) (posefile : String) : PoseDetector :=
  { s with mPoseFile := posefile }

/-- Member `initSkipCount`. -/
def initSkipCount (s : PoseDetector) (skip_frames : Int) : PoseDetector :=
  { s with mSkipCount := skip_frames }

/-- Member `initService`. -/
def initService (s : PoseDetector) (service_name : String) : PoseDetector :=
  if service_name = "" then s
  else { s with log := s.log ++ [Effect.advertiseService service_name] }

/-- Member `computeCameraPose`. -/
def computeCameraPose (s : PoseDetector) : PoseDetector :=
  { s with mPose2Compute := .CAMERA }

/-- The message `publishMarker` builds from the current state. -/
def markerMsg (s : PoseDetector) : Marker :=
  { frame_id := s.mBase_frame
    stamp := s.mTime
    ns := s.mMarkerNS
    position := ⟨s.mPose.x, s.mPose.y, s.mPose.z⟩
    orientation := s.mPose.quaterion
    scale := ⟨s.mCheckerboardBox.1 * 2, s.mCheckerboardBox.2 * 2,
      (s.mCheckerboardBox.2 + s.mCheckerboardBox.1) / 20⟩ }

/-- The transform `publishTf` sends from the current state. -/
def tfMsg (s : PoseDetector) : Effect :=
  Effect.sendTransform s.mPose.quaterion ⟨s.mPose.x, s.mPose.y, s.mPose.z⟩ s.mTime
    s.mBase_frame s.mFrame_id

/-- Member `publishMarker`. -/
def publishMarker (s : PoseDetector) : PoseDetector :=
  if !s.mPublishRVizMarker then s
  else if !s.mValidPose then s
  else { s with log := s.log ++ [Effect.marker s.markerMsg] }

/-- Member `publishTf`. -/
def publishTf (s : PoseDetector) : PoseDetector :=
  if !s.mPublishTFLink then s
  else if !s.mValidPose then s
  else { s with log := s.log ++ [s.tfMsg] }

/-- Member `imageDummyCallback`. -/
def imageDummyCallback (s : PoseDetector) (f : Frame) : PoseDetector :=
  let s := { s with mTime := f.stamp }
  let s := s.publishTf
  let s := s.publishMarker
  { s with mSuccessfulDetection := true }

/-- The value of `mFrameCount` after `mFrameCount++` (line 307). -/
def nextCount (s : PoseDetector) : Int :=
  s.mFrameCountType.next s.mFrameCount

/-- The head of `imageCallback` (lines 307 to 309): the counter is incremented, then the
two early returns are tried. The result is the state and whether control goes on to the
`try` block. The operator `%` of C++ truncates towards zero; the operand `mSkipCount` is at
least 1 where `%` is reached, so a conversion to an unsigned counter type leaves it as it
is. -/
def throttle (s : PoseDetector) : PoseDetector × Bool :=
  let s := { s with mFrameCount := s.nextCount }
  if s.mSkipCount < 1 then (s, false)
  else if Int.tmod s.mFrameCount s.mSkipCount > 0 then (s, false)
  else (s, true)

/-- The debug display that closes the `try` block of `imageCallback`. -/
def showDebug (s : PoseDetector) : PoseDetector :=
  if s.mDrawDebugImage then { s with log := s.log ++ [Effect.imshow s.mWindowName] } else s

/-- The `switch (mPose2Compute)` of `imageCallback` (lines 350 to 358) on the pose `find`
returned. -/
def applyMode (s : PoseDetector) (f : Frame) (pose : PoseD) : PoseDetector :=
  match s.mPose2Compute with
  | .BOARD => { s with mPose := pose }
  | .CAMERA => { s with mFrame_id := f.info_frame_id, mPose := pose.inv }

/-- The write of the pose file when a path is configured (lines 359 to 361). -/
def writePoseFile (s : PoseDetector) : PoseDetector :=
  if s.mPoseFile ≠ "" then
    { s with log := s.log ++ [Effect.writePose s.mPoseFile s.mBase_frame s.mFrame_id s.mPose] }
  else s

/-- The debug overlay after a detection (lines 366 to 369). -/
def drawDetection (s : PoseDetector) : PoseDetector :=
  if s.mDrawDebugImage then
    { s with log := s.log ++ [Effect.drawBoard, Effect.drawSystem s.mPose] }
  else s

/-- The branch of `imageCallback` taken when `find` returns true (lines 349 to 370). -/
def onFound (s : PoseDetector) (f : Frame) (pose : PoseD) : PoseDetector :=
  let s := s.applyMode f pose
  let s := s.writePoseFile
  let s := { s with mValidPose := true }
  let s := s.publishTf
  let s := s.publishMarker
  let s := s.drawDetection
  { s with mSuccessfulDetection := true }

/-- The branch of `imageCallback` taken when `find` returns false (lines 371 to 376). -/
def onMiss (s : PoseDetector) : PoseDetector :=
  if s.mPublishLastSuccess then s.publishTf.publishMarker else s

/-- The `try` block of `imageCallback` (lines 313 to 383), run on an admitted frame. An
unsupported Bayer encoding returns before `find` is reached; every other encoding goes on
to `find`, whose answer is `f.found`. -/
def processFrame (s : PoseDetector) (f : Frame) : PoseDetector :=
  match f.encoding with
  | .bayerUnsupported => { s with log := s.log ++ [Effect.unsupportedEncoding] }
  | _ =>
    let s := { s with mTime := f.stamp }
    match f.found with
    | some pose => (s.onFound f pose).showDebug
    | none => s.onMiss.showDebug

/-- Member `imageCallback`. -/
def imageCallback (s : PoseDetector) (f : Frame) : PoseDetector :=
  match s.throttle with
  | (s, false) => s
  | (s, true) => s.processFrame f

/-- One frame handed over by `ros::spinOnce`: it goes to the callback registered by
`subscribe`, and is dropped when there is no subscription. -/
def spinOnce (s : PoseDetector) (f : Frame) : PoseDetector :=
  match s.mCameraSubscriber with
  | none => s
  | some .imageCallback => s.imageCallback f
  | some .imageDummyCallback => s.imageDummyCallback f

/-- The statements of `compute_pose` before its loop (lines 227 to 229). -/
def beginWait (env : Env) (s : PoseDetector) : PoseDetector :=
  let s := s.subscribe env
  let s := { s with mSuccessfulDetection := false }
  { s with mSkipCount := 1 }

/-- The loop `while (mSuccessfulDetection == false) ros::spinOnce();` against the frames
that arrive, one per `spinOnce`. The result is the state when the loop is left, or when
the frames have run out, and the frames not yet delivered. -/
def waitLoop : PoseDetector → List Frame → PoseDetector × List Frame
  | s, [] => (s, [])
  | s, f :: rest =>
    if s.mSuccessfulDetection then (s, f :: rest) else waitLoop (s.spinOnce f) rest

/-- The response `compute_pose` fills in from the stored pose (lines 236 to 243). -/
def response (s : PoseDetector) : Response :=
  { position := ⟨s.mPose.x, s.mPose.y, s.mPose.z⟩, orientation := s.mPose.quaterion }

/-- What a returning call of `compute_pose` leaves behind. -/
structure Reply where
  /-- The return value. -/
  ret : Bool
  /-- The filled response. -/
  resp : Response
  /-- The controller after the call. -/
  state : PoseDetector
  /-- The frames not consumed by the call. -/
  pending : List Frame
deriving DecidableEq

/-- Member `compute_pose` against the frames that arrive while it runs. `none` means the
call is still in its loop when the given frames are used up. -/
def compute_pose (env : Env) (s : PoseDetector) (frames : List Frame) : Option Reply :=
  if s.mCameraSubscriber.isNone then
    let w := waitLoop (s.beginWait env) frames
    if w.1.mSuccessfulDetection then
      let s := { w.1 with mCameraSubscriber := none }
      some { ret := true, resp := s.response, state := s, pending := w.2 }
    else none
  else
    some { ret := true, resp := s.response, state := s, pending := frames }

/-- The controller state a call of `compute_pose` has reached once the given frames have
arrived: the state at return if it returns, the state inside the loop otherwise. -/
def compute_pose_state (env : Env) (s : PoseDetector) (frames : List Frame) : PoseDetector :=
  if s.mCameraSubscriber.isNone then
    let w := waitLoop (s.beginWait env) frames
    if w.1.mSuccessfulDetection then { w.1 with mCameraSubscriber := none } else w.1
  else s

/-- Frames handed one after the other to `imageCallback`: the positions, counted from
`k` for the first frame, of those that pass the head of the callback. -/
def admittedFrom : Nat → PoseDetector → List Frame → List Nat
  | _, _, [] => []
  | k, s, f :: rest =>
    (if s.throttle.2 then [k] else []) ++ admittedFrom (k + 1) (s.imageCallback f) rest

/-- The positions, counted from 1, of the admitted frames of a run. -/
def admittedPositions (s : PoseDetector) (frames : List Frame) : List Nat :=
  admittedFrom 1 s frames

end PoseDetector

open PoseDetector

/-- What every run of the `try` block leaves alone. -/
structure SameConfig (s t : PoseDetector) : Prop where
  mSkipCount : t.mSkipCount = s.mSkipCount
  mFrameCount : t.mFrameCount = s.mFrameCount
  mFrameCountType : t.mFrameCountType = s.mFrameCountType
  mPose2Compute : t.mPose2Compute = s.mPose2Compute
  mReadPoseFromFile : t.mReadPoseFromFile = s.mReadPoseFromFile
  mCameraSubscriber : t.mCameraSubscriber = s.mCameraSubscriber
  mPublishTFLink : t.mPublishTFLink = s.mPublishTFLink
  mPublishRVizMarker : t.mPublishRVizMarker = s.mPublishRVizMarker

/-! ## Runs, invariants and sample data -/

/-- The sink calls of a log that publish a pose (transform broadcasts and markers). -/
def publications (l : List Effect) : List Effect := l.filter Effect.isPublication

/-- A pose with translation `(1, 0, 0)` and the identity rotation. -/
def unitXPose : PoseD := ⟨⟨1, 0, 0⟩, Quat.identity⟩

/-- A frame on which `find` finds nothing. -/
def missFrame : Frame :=
  { stamp := 1, encoding := .notBayer, info_frame_id := "camera", found := none }

/-- A frame on which `find` returns `unitXPose`. -/
def hitFrame : Frame :=
  { stamp := 2, encoding := .BAYER_RGGB8, info_frame_id := "camera", found := some unitXPose }

/-- A pose file holding translation `(0, 0, 2)` with the identity rotation under every path. -/
def demoEnv : Env := ⟨fun _ _ => ⟨⟨0, 0, 2⟩, Quat.identity⟩⟩

/-- A freshly constructed live controller with both publishers enabled. -/
def demoDetector : PoseDetector :=
  PoseDetector.new "image" true true false false ⟨⟨0, 0, 0⟩, Quat.identity⟩ IntType.int32

/-- The same controller after `computeCameraPose`. -/
def demoCamera : PoseDetector := demoDetector.computeCameraPose

/-- A live controller that holds a pose from an earlier detection, with "publish last
success" and both publishers enabled. -/
def demoTracking : PoseDetector :=
  (demoDetector.initCheckerboard (8, 6) (1 / 10, 1 / 10) true true).imageCallback hitFrame

/-- A live controller before any detection, with "publish last success" and both
publishers enabled. -/
def demoBlind : PoseDetector :=
  demoDetector.initCheckerboard (8, 6) (1 / 10, 1 / 10) true true

/-- A live controller with a skip count of 3 and an `int` counter at 2. -/
def demoSkipThree : PoseDetector :=
  { demoDetector with mSkipCount := 3, mFrameCount := 2 }

/-- A live controller with a skip count of 3 whose counter is an `unsigned int` at its
largest value. -/
def demoTopUnsigned : PoseDetector :=
  { demoDetector with
    mSkipCount := 3, mFrameCount := 4294967295, mFrameCountType := IntType.uint32 }

/-- A live controller with a skip count of 3 whose counter is an `int` at its largest
value. -/
def demoTopSigned : PoseDetector :=
  { demoDetector with mSkipCount := 3, mFrameCount := 2147483647 }

/-- A live controller with a skip count of 3 whose counter is an `int` at -3. -/
def demoNegative : PoseDetector :=
  { demoDetector with mSkipCount := 3, mFrameCount := -3 }

/-- The pose `imageCallback` stores for the raw pose `P` under the mode of `s`. -/
def storedFor (s : PoseDetector) (P : PoseD) : PoseD :=
  match s.mPose2Compute with
  | .BOARD => P
  | .CAMERA => P.inv

/-- The live controller after a first on-demand query that was served by a miss followed
by a detection. -/
def demoAfterQuery : PoseDetector :=
  demoDetector.compute_pose_state demoEnv [missFrame, hitFrame]

/-- A freshly constructed replay controller (`read_pose_file` true), both publishers
enabled. -/
def demoReplay : PoseDetector :=
  PoseDetector.new "image" true true true false ⟨⟨0, 0, 0⟩, Quat.identity⟩ IntType.int32

/-- True when `find` is reached on the frame and finds the board. -/
def Frame.detects (f : Frame) : Bool :=
  decide (f.encoding ≠ .bayerUnsupported) && f.found.isSome

/-- The operations of a controller: its public member functions, the two callbacks, the two
publishers, and the delivery of a frame through the current subscription. -/
inductive Op
  | subscribe
  | initCheckerboard (checkerboard : Int × Int) (checkerboardbox : ℚ × ℚ)
      (use_sub_pixel publish_last_success : Bool)
  | initLinks (base_frame frame_id : String)
  | initMarkerNS (markerNS : String)
  | initPoseFile (posefile : String)
  | initSkipCount (skip_frames : Int)
  | initService (service_name : String)
  | computeCameraPose
  | compute_pose (frames : List Frame)
  | frame (f : Frame)
  | imageCallback (f : Frame)
  | imageDummyCallback (f : Frame)
  | publishTf
  | publishMarker

/-- The state an operation leaves (for `compute_pose`: the state reached with the frames
given, see `compute_pose_state`). -/
def Op.apply (env : Env) (s : PoseDetector) : Op → PoseDetector
  | .subscribe => s.subscribe env
  | .initCheckerboard c b u p => s.initCheckerboard c b u p
  | .initLinks b f => s.initLinks b f
  | .initMarkerNS n => s.initMarkerNS n
  | .initPoseFile p => s.initPoseFile p
  | .initSkipCount n => s.initSkipCount n
  | .initService n => s.initService n
  | .computeCameraPose => s.computeCameraPose
  | .compute_pose frames => s.compute_pose_state env frames
  | .frame f => s.spinOnce f
  | .imageCallback f => s.imageCallback f
  | .imageDummyCallback f => s.imageDummyCallback f
  | .publishTf => s.publishTf
  | .publishMarker => s.publishMarker

/-- A sequence of operations, applied in order. -/
def run (env : Env) (s : PoseDetector) (ops : List Op) : PoseDetector :=
  ops.foldl (Op.apply env) s

/-- True on a direct call of `imageCallback`, as opposed to a frame that arrives through
the subscription. -/
def Op.isImageCallback : Op → Bool
  | .imageCallback _ => true
  | _ => false

/-- What holds of a replay controller throughout: it reads its pose from file, has no
valid pose, delivers no frame to `imageCallback`, and has published nothing. -/
structure ReplayInv (s : PoseDetector) : Prop where
  replay : s.mReadPoseFromFile = true
  invalid : s.mValidPose = false
  callback : s.mCameraSubscriber ≠ some .imageCallback
  silent : publications s.log = []

/-! ## Frame lemmas -/

theorem publishTf_eq (s : PoseDetector) :
    s.publishTf =
      { s with log := s.log ++ if s.mPublishTFLink && s.mValidPose then [s.tfMsg] else [] } := by
  cases s
  unfold publishTf
  dsimp only
  split_ifs <;> simp_all

theorem publishMarker_eq (s : PoseDetector) :
    s.publishMarker =
      { s with
        log := s.log ++
          if s.mPublishRVizMarker && s.mValidPose then [Effect.marker s.markerMsg] else [] } := by
  cases s
  unfold publishMarker
  dsimp only
  split_ifs <;> simp_all

theorem showDebug_eq (s : PoseDetector) :
    s.showDebug =
      { s with log := s.log ++ if s.mDrawDebugImage then [Effect.imshow s.mWindowName] else [] } := by
  cases s
  unfold showDebug
  dsimp only
  split_ifs <;> simp_all

theorem throttle_fst (s : PoseDetector) :
    s.throttle.1 = { s with mFrameCount := s.nextCount } := by
  unfold throttle
  simp only
  split
  · rfl
  · split <;> rfl

theorem throttle_snd (s : PoseDetector) :
    s.throttle.2 = true ↔ 1 ≤ s.mSkipCount ∧ Int.tmod s.nextCount s.mSkipCount ≤ 0 := by
  unfold throttle
  simp only
  by_cases h1 : s.mSkipCount < 1
  · simp only [h1, if_true]
    constructor
    · intro h; cases h
    · rintro ⟨h, -⟩; omega
  · simp only [h1, if_false]
    split
    · rename_i h2
      constructor
      · intro h; cases h
      · rintro ⟨-, h⟩; omega
    · rename_i h2
      constructor
      · intro _; exact ⟨by omega, by omega⟩
      · intro _; rfl

theorem next_of_lt (t : IntType) (v : Int) (h : v < t.maxValue) : t.next v = v + 1 := by
  unfold IntType.next
  rw [if_neg (by omega)]

theorem nextCount_of_lt (s : PoseDetector) (h : s.mFrameCount < s.mFrameCountType.maxValue) :
    s.nextCount = s.mFrameCount + 1 :=
  next_of_lt _ _ h

theorem iterate_next_of_le (t : IntType) :
    ∀ (k : Nat) (v : Int), v + (k : Int) ≤ t.maxValue → (t.next)^[k] v = v + (k : Int) := by
  intro k
  induction k with
  | zero => intro v _; simp
  | succ k ih =>
    intro v h
    have hv : t.next v = v + 1 := next_of_lt t v (by push_cast at h; omega)
    rw [Function.iterate_succ_apply, hv, ih (v + 1) (by push_cast at h ⊢; omega)]
    push_cast
    omega

theorem applyMode_eq (s : PoseDetector) (f : Frame) (pose : PoseD) :
    s.applyMode f pose =
      { s with
        mFrame_id := if s.mPose2Compute = .CAMERA then f.info_frame_id else s.mFrame_id
        mPose := if s.mPose2Compute = .CAMERA then pose.inv else pose } := by
  cases s
  unfold applyMode
  dsimp only
  split <;> simp_all

theorem writePoseFile_eq (s : PoseDetector) :
    s.writePoseFile =
      { s with
        log := s.log ++
          if s.mPoseFile ≠ "" then
            [Effect.writePose s.mPoseFile s.mBase_frame s.mFrame_id s.mPose] else [] } := by
  cases s
  unfold writePoseFile
  dsimp only
  split_ifs <;> simp_all

theorem drawDetection_eq (s : PoseDetector) :
    s.drawDetection =
      { s with
        log := s.log ++
          if s.mDrawDebugImage then [Effect.drawBoard, Effect.drawSystem s.mPose] else [] } := by
  cases s
  unfold drawDetection
  dsimp only
  split_ifs <;> simp_all

theorem onMiss_eq (s : PoseDetector) :
    s.onMiss =
      { s with
        log := s.log ++
          if s.mPublishLastSuccess && s.mValidPose then
            (if s.mPublishTFLink then [s.tfMsg] else []) ++
              (if s.mPublishRVizMarker then [Effect.marker s.markerMsg] else [])
          else [] } := by
  cases s
  unfold onMiss
  simp only [publishTf_eq, publishMarker_eq]
  dsimp only [tfMsg, markerMsg]
  split_ifs <;> simp_all

theorem onFound_fields (s : PoseDetector) (f : Frame) (pose : PoseD) :
    ∃ l, s.onFound f pose =
      { s with
        mFrame_id := if s.mPose2Compute = .CAMERA then f.info_frame_id else s.mFrame_id
        mPose := if s.mPose2Compute = .CAMERA then pose.inv else pose
        mValidPose := true
        mSuccessfulDetection := true
        log := s.log ++ l } := by
  unfold onFound
  simp only [applyMode_eq, writePoseFile_eq, publishTf_eq, publishMarker_eq, drawDetection_eq,
    List.append_assoc]
  exact ⟨_, rfl⟩

theorem processFrame_unsupported (s : PoseDetector) (f : Frame)
    (h : f.encoding = .bayerUnsupported) :
    s.processFrame f = { s with log := s.log ++ [Effect.unsupportedEncoding] } := by
  unfold processFrame
  rw [h]

theorem processFrame_some (s : PoseDetector) (f : Frame) (pose : PoseD)
    (h : f.encoding ≠ .bayerUnsupported) (hf : f.found = some pose) :
    s.processFrame f = (({ s with mTime := f.stamp } : PoseDetector).onFound f pose).showDebug := by
  unfold processFrame
  rw [hf]
  cases he : f.encoding <;> first | exact absurd he h | rfl

theorem processFrame_none (s : PoseDetector) (f : Frame)
    (h : f.encoding ≠ .bayerUnsupported) (hf : f.found = none) :
    s.processFrame f = ({ s with mTime := f.stamp } : PoseDetector).onMiss.showDebug := by
  unfold processFrame
  rw [hf]
  cases he : f.encoding <;> first | exact absurd he h | rfl

theorem processFrame_found (s : PoseDetector) (f : Frame) (pose : PoseD)
    (h : f.encoding ≠ .bayerUnsupported) (hf : f.found = some pose) :
    ∃ l, s.processFrame f =
      { s with
        mTime := f.stamp
        mFrame_id := if s.mPose2Compute = .CAMERA then f.info_frame_id else s.mFrame_id
        mPose := if s.mPose2Compute = .CAMERA then pose.inv else pose
        mValidPose := true
        mSuccessfulDetection := true
        log := s.log ++ l } := by
  rw [processFrame_some s f pose h hf]
  obtain ⟨l, hl⟩ := onFound_fields { s with mTime := f.stamp } f pose
  rw [hl, showDebug_eq]
  refine ⟨l ++ (if s.mDrawDebugImage then [Effect.imshow s.mWindowName] else []), ?_⟩
  simp only [List.append_assoc]

theorem processFrame_miss (s : PoseDetector) (f : Frame)
    (h : f.encoding ≠ .bayerUnsupported) (hf : f.found = none) :
    s.processFrame f =
      { s with
        mTime := f.stamp
        log := s.log ++
          ((if s.mPublishLastSuccess && s.mValidPose then
            (if s.mPublishTFLink then [({ s with mTime := f.stamp } : PoseDetector).tfMsg] else []) ++
              (if s.mPublishRVizMarker then
                [Effect.marker ({ s with mTime := f.stamp } : PoseDetector).markerMsg] else [])
          else []) ++ if s.mDrawDebugImage then [Effect.imshow s.mWindowName] else []) } := by
  rw [processFrame_none s f h hf, onMiss_eq, showDebug_eq]
  simp only [List.append_assoc]

theorem processFrame_same (s : PoseDetector) (f : Frame) : SameConfig s (s.processFrame f) := by
  by_cases h : f.encoding = .bayerUnsupported
  · rw [processFrame_unsupported s f h]
    constructor <;> rfl
  · cases hf : f.found with
    | none =>
      rw [processFrame_miss s f h hf]
      constructor <;> rfl
    | some pose =>
      obtain ⟨l, hl⟩ := processFrame_found s f pose h hf
      rw [hl]
      constructor <;> rfl

theorem imageCallback_eq (s : PoseDetector) (f : Frame) :
    s.imageCallback f =
      if s.throttle.2 then ({ s with mFrameCount := s.nextCount } : PoseDetector).processFrame f
      else { s with mFrameCount := s.nextCount } := by
  unfold imageCallback
  have h1 := throttle_fst s
  rcases hs : s.throttle with ⟨t, b⟩
  rw [hs] at h1
  dsimp only at h1
  subst h1
  cases b <;> simp

theorem imageCallback_mFrameCount (s : PoseDetector) (f : Frame) :
    (s.imageCallback f).mFrameCount = s.nextCount := by
  rw [imageCallback_eq]
  split
  · rw [(processFrame_same _ f).mFrameCount]
  · rfl

theorem imageCallback_mFrameCountType (s : PoseDetector) (f : Frame) :
    (s.imageCallback f).mFrameCountType = s.mFrameCountType := by
  rw [imageCallback_eq]
  split
  · rw [(processFrame_same _ f).mFrameCountType]
  · rfl

theorem imageCallback_mSkipCount (s : PoseDetector) (f : Frame) :
    (s.imageCallback f).mSkipCount = s.mSkipCount := by
  rw [imageCallback_eq]
  split
  · rw [(processFrame_same _ f).mSkipCount]
  · rfl

theorem throttle_iff_dvd (s : PoseDetector) (h0 : 0 ≤ s.nextCount) :
    s.throttle.2 = true ↔ 1 ≤ s.mSkipCount ∧ s.mSkipCount ∣ s.nextCount := by
  rw [throttle_snd]
  constructor
  · rintro ⟨h1, h2⟩
    refine ⟨h1, ?_⟩
    rw [Int.tmod_eq_emod h0 (by omega)] at h2
    have h3 := Int.emod_nonneg s.nextCount (show s.mSkipCount ≠ 0 by omega)
    exact Int.dvd_of_emod_eq_zero (by omega)
  · rintro ⟨h1, h2⟩
    refine ⟨h1, ?_⟩
    rw [Int.tmod_eq_emod h0 (by omega), Int.emod_eq_zero_of_dvd h2]

theorem admittedFrom_eq (frames : List Frame) :
    ∀ (k : Nat) (s : PoseDetector), s.mFrameCount + 1 = (k : Int) →
      s.mFrameCount + (frames.length : Int) ≤ s.mFrameCountType.maxValue →
      admittedFrom k s frames =
        (List.range' k frames.length).filter
          (fun (j : Nat) => decide (1 ≤ s.mSkipCount ∧ s.mSkipCount ∣ (j : Int))) := by
  induction frames with
  | nil => intro k s _ _; rfl
  | cons f rest ih =>
    intro k s hk hmax
    rw [List.length_cons] at hmax
    push_cast at hmax
    have hnext : s.nextCount = (k : Int) := by
      rw [nextCount_of_lt s (by omega), hk]
    have hrec := ih (k + 1) (s.imageCallback f)
      (by rw [imageCallback_mFrameCount, hnext]; push_cast; rfl)
      (by rw [imageCallback_mFrameCount, imageCallback_mFrameCountType, hnext]; omega)
    have hiff := throttle_iff_dvd s (by rw [hnext]; exact Int.ofNat_nonneg k)
    rw [hnext] at hiff
    simp only [admittedFrom, hrec, imageCallback_mSkipCount, List.length_cons, List.range'_succ,
      List.filter_cons]
    by_cases ha : s.throttle.2 = true
    · have := hiff.1 ha
      simp [ha, this]
    · have h2 : ¬ (1 ≤ s.mSkipCount ∧ s.mSkipCount ∣ (k : Int)) := fun h => ha (hiff.2 h)
      simp only [ha, Bool.false_eq_true, if_false, List.nil_append]
      rw [if_neg (by simpa using h2)]

theorem admittedFrom_disabled (frames : List Frame) :
    ∀ (k : Nat) (s : PoseDetector), s.mSkipCount < 1 → admittedFrom k s frames = [] := by
  induction frames with
  | nil => intro k s _; rfl
  | cons f rest ih =>
    intro k s hs
    have ha : s.throttle.2 = false := by
      cases h : s.throttle.2
      · rfl
      · have := ((throttle_snd s).1 h).1
        omega
    simp only [admittedFrom, ha, Bool.false_eq_true, if_false, List.nil_append]
    exact ih (k + 1) _ (by rw [imageCallback_mSkipCount]; exact hs)

/-! ## C1: frame admission -/

/-- Counterexample to C1 as stated, at the ends of the counter's range. With an
`unsigned int` counter at its largest value and a skip count of 3, the frame leaves the
counter at 0, not one higher, and is admitted although the counter plus one is 1 modulo 3.
With an `int` counter at its largest value the counter wraps to the smallest value and the
frame is admitted although the counter plus one is 2 modulo 3. With an `int` counter at
-3 the raised counter is -2, which 3 does not divide, and the frame is admitted. -/
theorem C1_counter_wraps :
    (demoTopUnsigned.mFrameCount = demoTopUnsigned.mFrameCountType.maxValue ∧
      demoTopUnsigned.mSkipCount = 3 ∧
      (demoTopUnsigned.imageCallback missFrame).mFrameCount = 0 ∧
      (demoTopUnsigned.imageCallback missFrame).mFrameCount ≠ demoTopUnsigned.mFrameCount + 1 ∧
      demoTopUnsigned.throttle.2 = true ∧
      (demoTopUnsigned.mFrameCount + 1) % demoTopUnsigned.mSkipCount = 1) ∧
    (demoTopSigned.mFrameCount = demoTopSigned.mFrameCountType.maxValue ∧
      demoTopSigned.mSkipCount = 3 ∧
      (demoTopSigned.imageCallback missFrame).mFrameCount = -2147483648 ∧
      demoTopSigned.throttle.2 = true ∧
      (demoTopSigned.mFrameCount + 1) % demoTopSigned.mSkipCount = 2) ∧
    (demoNegative.mFrameCount = -3 ∧
      demoNegative.mSkipCount = 3 ∧
      (demoNegative.imageCallback missFrame).mFrameCount = -2 ∧
      demoNegative.throttle.2 = true ∧
      (demoNegative.mFrameCount + 1) % demoNegative.mSkipCount = 1) := by
  decide

/-- C1, amended. At every counter value from 0 up to, but not including, the largest value
of the counter's type, a frame handed to `imageCallback` raises `mFrameCount` by exactly
one, admitted or not, and goes on to the detection block if and only if `mSkipCount >= 1`
and the raised counter is `0` modulo `mSkipCount`. From a counter of `0` the admitted
frames of a run that is no longer than the largest counter value are exactly those at the
positions `k >= 1` that `mSkipCount >= 1` divides: positions `3, 6, 9` for a skip count of
`3` and ten frames. For a skip count of `0` or below no frame is admitted, at any counter
value and for runs of any length. -/
theorem C1_frame_admission (s : PoseDetector) (f : Frame) (frames : List Frame) :
    (0 ≤ s.mFrameCount → s.mFrameCount < s.mFrameCountType.maxValue →
      s.throttle.1.mFrameCount = s.mFrameCount + 1 ∧
      (s.imageCallback f).mFrameCount = s.mFrameCount + 1 ∧
      (s.throttle.2 = true ↔
        1 ≤ s.mSkipCount ∧ (s.mFrameCount + 1) % s.mSkipCount = 0) ∧
      s.imageCallback f =
        (if 1 ≤ s.mSkipCount ∧ (s.mFrameCount + 1) % s.mSkipCount = 0 then
          ({ s with mFrameCount := s.mFrameCount + 1 } : PoseDetector).processFrame f
        else { s with mFrameCount := s.mFrameCount + 1 })) ∧
    ((frames.length : Int) ≤ s.mFrameCountType.maxValue →
      admittedPositions { s with mFrameCount := 0 } frames =
        (List.range' 1 frames.length).filter
          (fun (k : Nat) => decide (1 ≤ s.mSkipCount ∧ s.mSkipCount ∣ (k : Int)))) ∧
    (10 ≤ s.mFrameCountType.maxValue →
      ∀ g : Fin 10 → Frame,
        admittedPositions { s with mFrameCount := 0, mSkipCount := 3 } (List.ofFn g) =
          [3, 6, 9]) ∧
    (∀ n : Nat, admittedPositions { s with mSkipCount := -(n : Int) } frames = []) := by
  refine ⟨?_, ?_, ?_, ?_⟩
  · intro h0 hmax
    have hnext : s.nextCount = s.mFrameCount + 1 := nextCount_of_lt s hmax
    have hiff : s.throttle.2 = true ↔
        1 ≤ s.mSkipCount ∧ (s.mFrameCount + 1) % s.mSkipCount = 0 := by
      rw [throttle_iff_dvd s (by omega), hnext]
      constructor
      · rintro ⟨h1, h2⟩
        exact ⟨h1, Int.emod_eq_zero_of_dvd h2⟩
      · rintro ⟨h1, h2⟩
        exact ⟨h1, Int.dvd_of_emod_eq_zero h2⟩
    refine ⟨?_, ?_, hiff, ?_⟩
    · rw [throttle_fst, ← hnext]
    · rw [imageCallback_mFrameCount, hnext]
    · rw [imageCallback_eq, hnext]
      by_cases h : s.throttle.2 = true
      · rw [if_pos h, if_pos (hiff.1 h)]
      · rw [if_neg h, if_neg (fun h2 => h (hiff.2 h2))]
  · intro hlen
    exact admittedFrom_eq frames 1 { s with mFrameCount := 0 } rfl
      (by show (0 : Int) + (frames.length : Int) ≤ s.mFrameCountType.maxValue; omega)
  · intro h10 g
    have h := admittedFrom_eq (List.ofFn g) 1 { s with mFrameCount := 0, mSkipCount := 3 } rfl
      (by
        show (0 : Int) + ((List.ofFn g).length : Int) ≤ s.mFrameCountType.maxValue
        rw [List.length_ofFn]
        push_cast
        omega)
    unfold admittedPositions
    rw [h, List.length_ofFn]
    show (List.range' 1 10).filter (fun (k : Nat) => decide ((1 : Int) ≤ 3 ∧ (3 : Int) ∣ (k : Int)))
      = [3, 6, 9]
    decide
  · intro n
    exact admittedFrom_disabled frames 1 _ (by show -(n : Int) < 1; omega)

/-- Witness for C1: an `int` counter at 2 with a skip count of 3, and a run of ten frames
from a counter of 0. -/
theorem C1_frame_admission_witness :
    (0 : Int) ≤ demoSkipThree.mFrameCount ∧
    demoSkipThree.mFrameCount < demoSkipThree.mFrameCountType.maxValue ∧
    (10 : Int) ≤ demoSkipThree.mFrameCountType.maxValue ∧
    (demoSkipThree.imageCallback missFrame).mFrameCount = demoSkipThree.mFrameCount + 1 ∧
    (demoSkipThree.throttle.2 = true ↔
      1 ≤ demoSkipThree.mSkipCount ∧
        (demoSkipThree.mFrameCount + 1) % demoSkipThree.mSkipCount = 0) ∧
    admittedPositions { demoSkipThree with mFrameCount := 0, mSkipCount := 3 }
      (List.ofFn fun (_ : Fin 10) => missFrame) = [3, 6, 9] :=
  have h := C1_frame_admission demoSkipThree missFrame []
  ⟨by decide, by decide, by decide, (h.1 (by decide) (by decide)).2.1,
    (h.1 (by decide) (by decide)).2.2.1, h.2.2.1 (by decide) fun _ => missFrame⟩

theorem imageCallback_admitted (s : PoseDetector) (f : Frame) (h : s.throttle.2 = true) :
    s.imageCallback f =
      ({ s with mFrameCount := s.nextCount } : PoseDetector).processFrame f := by
  rw [imageCallback_eq, if_pos h]

theorem imageCallback_found (s : PoseDetector) (f : Frame) (pose : PoseD)
    (ha : s.throttle.2 = true) (h : f.encoding ≠ .bayerUnsupported) (hf : f.found = some pose) :
    ∃ l, s.imageCallback f =
      { s with
        mFrameCount := s.nextCount
        mTime := f.stamp
        mFrame_id := if s.mPose2Compute = .CAMERA then f.info_frame_id else s.mFrame_id
        mPose := if s.mPose2Compute = .CAMERA then pose.inv else pose
        mValidPose := true
        mSuccessfulDetection := true
        log := s.log ++ l } := by
  rw [imageCallback_admitted s f ha]
  exact processFrame_found _ f pose h hf

theorem imageCallback_notFound (s : PoseDetector) (f : Frame)
    (h : f.encoding = .bayerUnsupported ∨ f.found = none) :
    ∃ t l, s.imageCallback f =
      { s with mFrameCount := s.nextCount, mTime := t, log := s.log ++ l } := by
  rw [imageCallback_eq]
  split
  · by_cases he : f.encoding = .bayerUnsupported
    · rw [processFrame_unsupported _ f he]
      exact ⟨s.mTime, _, rfl⟩
    · have hf : f.found = none := h.resolve_left he
      rw [processFrame_miss _ f he hf]
      exact ⟨f.stamp, _, rfl⟩
  · exact ⟨s.mTime, [], by simp⟩

/-! ## C2: a successful detection -/

/-- C2. On an admitted frame that reaches `find` and on which `find` returns the raw pose
`P`, the pose stored after `imageCallback` is `P` in mode BOARD and `P.inv` in mode CAMERA;
`mFrame_id` is overwritten with the frame id of the camera info in mode CAMERA and is
unchanged in mode BOARD; `mValidPose` is true afterwards. With the rigid inverse for `inv`,
a raw pose of translation `(1, 0, 0)` and identity rotation is stored in mode CAMERA with
translation `(-1, 0, 0)`. -/
theorem C2_successful_detection (s : PoseDetector) (f : Frame) (P : PoseD)
    (hadm : s.throttle.2 = true) (henc : f.encoding ≠ .bayerUnsupported)
    (hfound : f.found = some P) :
    (s.imageCallback f).mPose =
      (match s.mPose2Compute with
        | .BOARD => P
        | .CAMERA => P.inv) ∧
    (s.imageCallback f).mFrame_id =
      (match s.mPose2Compute with
        | .BOARD => s.mFrame_id
        | .CAMERA => f.info_frame_id) ∧
    (s.imageCallback f).mValidPose = true ∧
    (s.mPose2Compute = .CAMERA → P = ⟨⟨1, 0, 0⟩, Quat.identity⟩ →
      (s.imageCallback f).mPose.tvec = ⟨-1, 0, 0⟩) := by
  obtain ⟨l, hl⟩ := imageCallback_found s f P hadm henc hfound
  rw [hl]
  refine ⟨?_, ?_, rfl, ?_⟩
  · cases h : s.mPose2Compute <;> simp
  · cases h : s.mPose2Compute <;> simp
  · intro hc hP
    subst hP
    simp only [hc, if_true]
    simp [PoseD.inv, Quat.identity, Quat.conj, Quat.rotate, Vec3.cross, Vec3.neg]

/-- Witness for C2: the camera-mode controller on a frame whose detection is `unitXPose`. -/
theorem C2_successful_detection_witness :
    demoCamera.throttle.2 = true ∧ hitFrame.encoding ≠ .bayerUnsupported ∧
    hitFrame.found = some unitXPose ∧
    (demoCamera.imageCallback hitFrame).mPose.tvec = ⟨-1, 0, 0⟩ ∧
    (demoCamera.imageCallback hitFrame).mFrame_id = "camera" ∧
    (demoCamera.imageCallback hitFrame).mValidPose = true :=
  have h := C2_successful_detection demoCamera hitFrame unitXPose (by decide) (by decide) rfl
  ⟨by decide, by decide, rfl, h.2.2.2 rfl rfl, h.2.1, h.2.2.1⟩

/-! ## C3: a detection miss -/

theorem imageCallback_notFound_keeps (s : PoseDetector) (f : Frame)
    (h : f.encoding = .bayerUnsupported ∨ f.found = none) :
    (s.imageCallback f).mPose = s.mPose ∧
    (s.imageCallback f).mValidPose = s.mValidPose ∧
    (s.imageCallback f).mPose2Compute = s.mPose2Compute ∧
    (s.imageCallback f).mFrame_id = s.mFrame_id := by
  obtain ⟨t, l, hl⟩ := imageCallback_notFound s f h
  rw [hl]
  exact ⟨rfl, rfl, rfl, rfl⟩

theorem foldl_imageCallback_notFound_keeps (frames : List Frame) :
    ∀ s : PoseDetector, (∀ g ∈ frames, g.found = none) →
      (frames.foldl imageCallback s).mPose = s.mPose ∧
      (frames.foldl imageCallback s).mValidPose = s.mValidPose ∧
      (frames.foldl imageCallback s).mPose2Compute = s.mPose2Compute ∧
      (frames.foldl imageCallback s).mFrame_id = s.mFrame_id := by
  induction frames with
  | nil => intro s _; exact ⟨rfl, rfl, rfl, rfl⟩
  | cons f rest ih =>
    intro s h
    have h1 := imageCallback_notFound_keeps s f (Or.inr (h f (List.mem_cons_self _ _)))
    have h2 := ih (s.imageCallback f) (fun g hg => h g (List.mem_cons_of_mem _ hg))
    rw [List.foldl_cons]
    exact ⟨h2.1.trans h1.1, h2.2.1.trans h1.2.1, h2.2.2.1.trans h1.2.2.1,
      h2.2.2.2.trans h1.2.2.2⟩

/-- C3. On an admitted frame that reaches `find` and on which `find` finds nothing, the
stored pose, `mValidPose`, the mode and `mFrame_id` after `imageCallback` are what they were
before it, for every state and so for either setting of "publish last success"; the same
holds after any run of frames on which `find` finds nothing. -/
theorem C3_detection_miss (s : PoseDetector) (f : Frame) (hadm : s.throttle.2 = true)
    (henc : f.encoding ≠ .bayerUnsupported) (hmiss : f.found = none) :
    ((s.imageCallback f).mPose = s.mPose ∧
      (s.imageCallback f).mValidPose = s.mValidPose ∧
      (s.imageCallback f).mPose2Compute = s.mPose2Compute ∧
      (s.imageCallback f).mFrame_id = s.mFrame_id) ∧
    s.imageCallback f =
      ({ s with mFrameCount := s.nextCount, mTime := f.stamp } : PoseDetector).onMiss.showDebug ∧
    (∀ frames : List Frame, (∀ g ∈ frames, g.found = none) →
      (frames.foldl imageCallback s).mPose = s.mPose ∧
      (frames.foldl imageCallback s).mValidPose = s.mValidPose ∧
      (frames.foldl imageCallback s).mPose2Compute = s.mPose2Compute ∧
      (frames.foldl imageCallback s).mFrame_id = s.mFrame_id) := by
  refine ⟨imageCallback_notFound_keeps s f (Or.inr hmiss), ?_,
    fun frames h => foldl_imageCallback_notFound_keeps frames s h⟩
  rw [imageCallback_admitted s f hadm, processFrame_none _ f henc hmiss]

/-- Witness for C3: three misses in a row on a controller that holds a detected pose. -/
theorem C3_detection_miss_witness :
    demoTracking.throttle.2 = true ∧ missFrame.found = none ∧
    (demoTracking.imageCallback missFrame).mPose = demoTracking.mPose ∧
    (demoTracking.imageCallback missFrame).mValidPose = true ∧
    ([missFrame, missFrame, missFrame].foldl imageCallback demoTracking).mPose =
      demoTracking.mPose :=
  have h := C3_detection_miss demoTracking missFrame (by decide) (by decide) rfl
  ⟨by decide, rfl, h.1.1, h.1.2.1.trans (by decide),
    (h.2.2 [missFrame, missFrame, missFrame] (by decide)).1⟩

/-! ## C4: publication gating -/

/-- C4. `publishTf` appends exactly one transform to the sink log when `mPublishTFLink` and
`mValidPose` are both true and otherwise returns the state as it is; `publishMarker` does
the same for one marker under `mPublishRVizMarker` and `mValidPose`; neither changes
anything but the sink log. A miss on an admitted frame while `mValidPose` is false
publishes nothing, also with "publish last success" enabled: the only call it can make
is the debug display. -/
theorem C4_publication_gating (s : PoseDetector) (f : Frame) :
    s.publishTf =
      (if s.mPublishTFLink = true ∧ s.mValidPose = true then
        { s with log := s.log ++ [s.tfMsg] } else s) ∧
    s.publishMarker =
      (if s.mPublishRVizMarker = true ∧ s.mValidPose = true then
        { s with log := s.log ++ [Effect.marker s.markerMsg] } else s) ∧
    { s.publishTf with log := s.log } = s ∧
    { s.publishMarker with log := s.log } = s ∧
    (s.throttle.2 = true → f.encoding ≠ .bayerUnsupported → f.found = none →
      s.mValidPose = false →
        (s.imageCallback f).log =
          s.log ++ (if s.mDrawDebugImage then [Effect.imshow s.mWindowName] else []) ∧
        publications (s.imageCallback f).log = publications s.log) := by
  refine ⟨?_, ?_, ?_, ?_, ?_⟩
  · rw [publishTf_eq]
    cases s
    dsimp only
    split_ifs <;> simp_all
  · rw [publishMarker_eq]
    cases s
    dsimp only
    split_ifs <;> simp_all
  · rw [publishTf_eq]
  · rw [publishMarker_eq]
  · intro ha he hf hv
    have hlog : (s.imageCallback f).log =
        s.log ++ (if s.mDrawDebugImage then [Effect.imshow s.mWindowName] else []) := by
      rw [imageCallback_admitted s f ha, processFrame_miss _ f he hf]
      simp [hv]
    refine ⟨hlog, ?_⟩
    rw [hlog]
    unfold publications
    split <;> simp [Effect.isPublication]

/-- Witness for C4: a miss before any detection, with "publish last success" and both
publishers enabled. -/
theorem C4_publication_gating_witness :
    demoBlind.mPublishLastSuccess = true ∧ demoBlind.mPublishTFLink = true ∧
    demoBlind.mPublishRVizMarker = true ∧
    (demoBlind.imageCallback missFrame).log = demoBlind.log :=
  ⟨rfl, rfl, rfl,
    ((C4_publication_gating demoBlind missFrame).2.2.2.2 (by decide) (by decide) rfl rfl).1.trans
      (by decide)⟩

/-! ## C6: a query on a subscribed controller -/

/-- C6. When the camera subscriber is active (its info topic is not empty), `compute_pose`
returns true at once: the response position is the stored pose's `(x, y, z)`, the
orientation its quaternion `(x, y, z, w)`, no frame is consumed, and the controller state
is the one before the call. -/
theorem C6_query_while_subscribed (env : Env) (s : PoseDetector) (frames : List Frame)
    (hsub : s.mCameraSubscriber ≠ none) :
    s.compute_pose env frames =
      some
        { ret := true
          resp :=
            { position := ⟨s.mPose.x, s.mPose.y, s.mPose.z⟩
              orientation :=
                ⟨s.mPose.quaterion.x, s.mPose.quaterion.y, s.mPose.quaterion.z,
                  s.mPose.quaterion.w⟩ }
          state := s
          pending := frames } ∧
    s.compute_pose_state env frames = s := by
  cases hc : s.mCameraSubscriber with
  | none => exact absurd hc hsub
  | some c =>
    unfold compute_pose compute_pose_state
    simp [hc, response]

/-- Witness for C6: a subscribed controller holding a detected pose. -/
theorem C6_query_while_subscribed_witness :
    (demoTracking.subscribe demoEnv).mCameraSubscriber ≠ none ∧
    ((demoTracking.subscribe demoEnv).compute_pose demoEnv [hitFrame]).map Reply.pending =
      some [hitFrame] :=
  ⟨by decide,
    by rw [(C6_query_while_subscribed demoEnv (demoTracking.subscribe demoEnv) [hitFrame]
      (by decide)).1]; rfl⟩

/-! ## The wait of `compute_pose` -/

theorem beginWait_eq (env : Env) (s : PoseDetector) :
    s.beginWait env =
      { s with
        mCameraSubscriber :=
          some (if s.mReadPoseFromFile then Callback.imageDummyCallback else Callback.imageCallback)
        mPose := if s.mReadPoseFromFile then env.read s.mPoseFile s.mPose else s.mPose
        mSuccessfulDetection := false
        mSkipCount := 1 } := by
  cases s
  unfold beginWait subscribe
  dsimp only
  split_ifs <;> simp_all

theorem waitLoop_done (s : PoseDetector) (frames : List Frame)
    (h : s.mSuccessfulDetection = true) : waitLoop s frames = (s, frames) := by
  cases frames with
  | nil => rfl
  | cons f rest => simp [waitLoop, h]

theorem waitLoop_step (s : PoseDetector) (f : Frame) (rest : List Frame)
    (h : s.mSuccessfulDetection = false) :
    waitLoop s (f :: rest) = waitLoop (s.spinOnce f) rest := by
  simp [waitLoop, h]

theorem throttle_skip_one (s : PoseDetector) (h : s.mSkipCount = 1) : s.throttle.2 = true := by
  rw [throttle_snd, h, Int.tmod_one]
  exact ⟨le_refl _, le_refl _⟩

theorem foldl_imageCallback_notFound (pre : List Frame) :
    ∀ s : PoseDetector, (∀ g ∈ pre, g.encoding = .bayerUnsupported ∨ g.found = none) →
      ∃ t l, pre.foldl imageCallback s =
        { s with
          mFrameCount := (s.mFrameCountType.next)^[pre.length] s.mFrameCount
          mTime := t
          log := s.log ++ l } := by
  induction pre with
  | nil =>
    intro s _
    exact ⟨s.mTime, [], by simp⟩
  | cons g rest ih =>
    intro s h
    obtain ⟨t1, l1, h1⟩ := imageCallback_notFound s g (h g (List.mem_cons_self _ _))
    obtain ⟨t2, l2, h2⟩ := ih (s.imageCallback g) (fun x hx => h x (List.mem_cons_of_mem _ hx))
    refine ⟨t2, l1 ++ l2, ?_⟩
    rw [List.foldl_cons, h2, h1]
    simp only [List.length_cons, List.append_assoc, Function.iterate_succ_apply, nextCount]

theorem waitLoop_misses (pre : List Frame) :
    ∀ (s : PoseDetector) (rest : List Frame),
      s.mCameraSubscriber = some .imageCallback → s.mSuccessfulDetection = false →
      (∀ g ∈ pre, g.encoding = .bayerUnsupported ∨ g.found = none) →
        waitLoop s (pre ++ rest) = waitLoop (pre.foldl imageCallback s) rest := by
  induction pre with
  | nil => intro s rest _ _ _; rfl
  | cons g pre ih =>
    intro s rest hsub hflag h
    obtain ⟨t1, l1, h1⟩ := imageCallback_notFound s g (h g (List.mem_cons_self _ _))
    have hspin : s.spinOnce g = s.imageCallback g := by
      unfold spinOnce
      rw [hsub]
    rw [List.cons_append, waitLoop_step s g _ hflag, hspin, List.foldl_cons]
    apply ih _ rest
    · rw [h1]; exact hsub
    · rw [h1]; exact hflag
    · exact fun x hx => h x (List.mem_cons_of_mem _ hx)

/-! ## C5: the on-demand query on an unsubscribed live controller -/

/-- C5. On a controller that is not subscribed and not in replay mode, whatever its skip
count and frame counter, a query served by a frame stream whose first detection is at
frame `k` (the `k - 1` frames before it give no detection, frame `k` reaches `find` and
`find` returns `P`) returns true after consuming exactly `k` frames: the response holds
the position and quaternion of the pose stored for `P` under the mode, every one of the `k`
frames was counted (`k` times `++`, which is the counter plus `k` when that does not
exceed the largest counter value), and the subscriber is shut down again. -/
theorem C5_rendezvous (env : Env) (s : PoseDetector) (pre : List Frame) (fk : Frame)
    (post : List Frame) (P : PoseD)
    (hsub : s.mCameraSubscriber = none) (hlive : s.mReadPoseFromFile = false)
    (hpre : ∀ g ∈ pre, g.encoding = .bayerUnsupported ∨ g.found = none)
    (henc : fk.encoding ≠ .bayerUnsupported) (hfound : fk.found = some P) :
    ∃ r : Reply, s.compute_pose env (pre ++ fk :: post) = some r ∧
      r.ret = true ∧
      r.pending = post ∧
      r.resp.position = ⟨(storedFor s P).x, (storedFor s P).y, (storedFor s P).z⟩ ∧
      r.resp.orientation = (storedFor s P).quaterion ∧
      r.state.mPose = storedFor s P ∧
      r.state.mCameraSubscriber = none ∧
      r.state.mFrameCount = (s.mFrameCountType.next)^[pre.length + 1] s.mFrameCount ∧
      (s.mFrameCount + ((pre.length : Int) + 1) ≤ s.mFrameCountType.maxValue →
        r.state.mFrameCount = s.mFrameCount + ((pre.length : Int) + 1)) := by
  have hb := beginWait_eq env s
  rw [hlive] at hb
  simp only [Bool.false_eq_true, if_false] at hb
  obtain ⟨t, l, hrun⟩ := foldl_imageCallback_notFound pre (s.beginWait env) hpre
  have hw := waitLoop_misses pre (s.beginWait env) (fk :: post) (by rw [hb]) (by rw [hb]) hpre
  generalize pre.foldl imageCallback (s.beginWait env) = u at hrun hw
  rw [hb] at hrun
  have huSub : u.mCameraSubscriber = some .imageCallback := by rw [hrun]
  have huSkip : u.mSkipCount = 1 := by rw [hrun]
  have huFlag : u.mSuccessfulDetection = false := by rw [hrun]
  have huMode : u.mPose2Compute = s.mPose2Compute := by rw [hrun]
  have huCount : u.mFrameCount = (s.mFrameCountType.next)^[pre.length] s.mFrameCount := by
    rw [hrun]
  have huType : u.mFrameCountType = s.mFrameCountType := by rw [hrun]
  have hspin : u.spinOnce fk = u.imageCallback fk := by
    unfold spinOnce
    rw [huSub]
  obtain ⟨l2, h2⟩ := imageCallback_found u fk P (throttle_skip_one u huSkip) henc hfound
  rw [waitLoop_step u fk post huFlag, hspin] at hw
  generalize u.imageCallback fk = v at h2 hw
  have hvFlag : v.mSuccessfulDetection = true := by rw [h2]
  have hvPose : v.mPose = storedFor s P := by
    rw [h2]
    unfold storedFor
    cases hm : s.mPose2Compute <;> simp [huMode, hm]
  have hvCount : v.mFrameCount = (s.mFrameCountType.next)^[pre.length + 1] s.mFrameCount := by
    rw [h2]
    show u.mFrameCountType.next u.mFrameCount = _
    rw [huCount, huType, Function.iterate_succ_apply']
  rw [waitLoop_done v post hvFlag] at hw
  refine ⟨{ ret := true
            resp := ({ v with mCameraSubscriber := none } : PoseDetector).response
            state := { v with mCameraSubscriber := none }
            pending := post }, ?_, rfl, rfl, ?_, ?_, hvPose, rfl, hvCount, ?_⟩
  rotate_left 3
  · intro hle
    show v.mFrameCount = _
    rw [hvCount, iterate_next_of_le _ (pre.length + 1) s.mFrameCount (by push_cast; omega)]
    push_cast
    rfl
  · unfold compute_pose
    simp only [hsub, Option.isNone_none, if_true, hw, hvFlag]
  · show (⟨v.mPose.x, v.mPose.y, v.mPose.z⟩ : Vec3) = _
    rw [hvPose]
  · show v.mPose.quaterion = _
    rw [hvPose]

/-- Witness for C5: a miss followed by a detection, on a fresh live controller. -/
theorem C5_rendezvous_witness :
    demoDetector.mCameraSubscriber = none ∧ demoDetector.mReadPoseFromFile = false ∧
    ∃ r : Reply, demoDetector.compute_pose demoEnv [missFrame, hitFrame] = some r ∧
      r.pending = [] ∧ r.state.mPose = unitXPose ∧ r.state.mCameraSubscriber = none ∧
      r.state.mFrameCount = 2 :=
  ⟨rfl, rfl,
    (C5_rendezvous demoEnv demoDetector [missFrame] hitFrame [] unitXPose rfl rfl (by decide)
      (by decide) rfl).imp
      fun _ h => ⟨h.1, h.2.2.1, h.2.2.2.2.2.1, h.2.2.2.2.2.2.1,
        h.2.2.2.2.2.2.2.2 (by decide)⟩⟩

/-! ## C7: the throttle at the start of the wait -/

theorem compute_pose_state_nil (env : Env) (s : PoseDetector)
    (hsub : s.mCameraSubscriber = none) : s.compute_pose_state env [] = s.beginWait env := by
  unfold compute_pose_state
  simp only [hsub, Option.isNone_none, if_true, waitLoop]
  rw [beginWait_eq]
  simp

/-- Counterexample to C7 as stated: after a first query that consumed two frames the
controller is unsubscribed with a frame counter of 2, and the next query enters its wait
with the counter still at 2, not 0. -/
theorem C7_frame_counter_not_reset :
    demoAfterQuery.mCameraSubscriber = none ∧
    demoAfterQuery.mFrameCount = 2 ∧
    (demoAfterQuery.compute_pose_state demoEnv []).mSkipCount = 1 ∧
    (demoAfterQuery.compute_pose_state demoEnv []).mFrameCount = 2 ∧
    (demoAfterQuery.compute_pose_state demoEnv []).mFrameCount ≠ 0 := by
  decide

/-- C7, amended. When `compute_pose` is called on a controller that is not subscribed, the
state in which its wait begins has skip count 1 and the frame counter it had before the
call, for every prior skip count and counter; with a skip count of 1 the next frame is
admitted whatever the counter is, and it is counted by one `++` on the prior counter. -/
theorem C7_force_immediate (env : Env) (s : PoseDetector) (f : Frame)
    (hsub : s.mCameraSubscriber = none) :
    s.compute_pose_state env [] = s.beginWait env ∧
    (s.beginWait env).mSkipCount = 1 ∧
    (s.beginWait env).mFrameCount = s.mFrameCount ∧
    (s.beginWait env).throttle.2 = true ∧
    ((s.beginWait env).imageCallback f).mFrameCount = s.nextCount ∧
    (s.mFrameCount < s.mFrameCountType.maxValue →
      ((s.beginWait env).imageCallback f).mFrameCount = s.mFrameCount + 1) := by
  have hb := beginWait_eq env s
  have h1 : (s.beginWait env).mSkipCount = 1 := by rw [hb]
  have h2 : (s.beginWait env).mFrameCount = s.mFrameCount := by rw [hb]
  have h3 : (s.beginWait env).mFrameCountType = s.mFrameCountType := by rw [hb]
  have h4 : ((s.beginWait env).imageCallback f).mFrameCount = s.nextCount := by
    rw [imageCallback_mFrameCount]
    unfold nextCount
    rw [h2, h3]
  refine ⟨compute_pose_state_nil env s hsub, h1, h2, throttle_skip_one _ h1, h4, ?_⟩
  intro hlt
  rw [h4, nextCount_of_lt s hlt]

/-- Witness for C7: a second query on the controller left by a first one. -/
theorem C7_force_immediate_witness :
    demoAfterQuery.mCameraSubscriber = none ∧
    (demoAfterQuery.beginWait demoEnv).mSkipCount = 1 ∧
    (demoAfterQuery.beginWait demoEnv).mFrameCount = demoAfterQuery.mFrameCount :=
  have h := C7_force_immediate demoEnv demoAfterQuery missFrame (by decide)
  ⟨by decide, h.2.1, h.2.2.1⟩

/-! ## C8: the flag of the wait -/

theorem imageDummyCallback_eq (s : PoseDetector) (f : Frame) :
    ∃ l, s.imageDummyCallback f =
      { s with mTime := f.stamp, mSuccessfulDetection := true, log := s.log ++ l } := by
  unfold imageDummyCallback
  simp only [publishTf_eq, publishMarker_eq, List.append_assoc]
  exact ⟨_, rfl⟩

theorem waitLoop_spec (frames : List Frame) :
    ∀ s : PoseDetector, ∃ pre : List Frame,
      frames = pre ++ (waitLoop s frames).2 ∧
      (waitLoop s frames).1 = pre.foldl spinOnce s ∧
      (∀ p : List Frame, p <+: pre → p ≠ pre →
        (p.foldl spinOnce s).mSuccessfulDetection = false) ∧
      ((waitLoop s frames).1.mSuccessfulDetection = false → (waitLoop s frames).2 = []) := by
  induction frames with
  | nil =>
    intro s
    refine ⟨[], rfl, rfl, ?_, fun _ => rfl⟩
    intro p hp hne
    exact absurd (List.prefix_nil.1 hp) hne
  | cons f rest ih =>
    intro s
    cases hflag : s.mSuccessfulDetection with
    | true =>
      rw [waitLoop_done s _ hflag]
      refine ⟨[], rfl, rfl, ?_, ?_⟩
      · intro p hp hne
        exact absurd (List.prefix_nil.1 hp) hne
      · intro h
        rw [hflag] at h
        cases h
    | false =>
      rw [waitLoop_step s f rest hflag]
      obtain ⟨pre, h1, h2, h3, h4⟩ := ih (s.spinOnce f)
      refine ⟨f :: pre, ?_, ?_, ?_, h4⟩
      · rw [List.cons_append, ← h1]
      · rw [h2, List.foldl_cons]
      · intro p hp hne
        cases p with
        | nil => exact hflag
        | cons g p =>
          obtain ⟨hg, hp'⟩ := List.cons_prefix_cons.1 hp
          subst hg
          rw [List.foldl_cons]
          exact h3 p hp' (fun h => hne (by rw [h]))

theorem imageCallback_mCameraSubscriber (s : PoseDetector) (f : Frame) :
    (s.imageCallback f).mCameraSubscriber = s.mCameraSubscriber := by
  rw [imageCallback_eq]
  split
  · rw [(processFrame_same _ f).mCameraSubscriber]
  · rfl

theorem imageCallback_skip_one (u : PoseDetector) (f : Frame) (h : u.mSkipCount = 1) :
    (u.imageCallback f).mSuccessfulDetection = (u.mSuccessfulDetection || f.detects) ∧
    (u.imageCallback f).mValidPose = (u.mValidPose || f.detects) := by
  by_cases he : f.encoding = .bayerUnsupported
  · obtain ⟨t, l, hl⟩ := imageCallback_notFound u f (Or.inl he)
    rw [hl]
    simp [Frame.detects, he]
  · cases hf : f.found with
    | none =>
      obtain ⟨t, l, hl⟩ := imageCallback_notFound u f (Or.inr hf)
      rw [hl]
      simp [Frame.detects, hf]
    | some P =>
      obtain ⟨l, hl⟩ := imageCallback_found u f P (throttle_skip_one u h) he hf
      rw [hl]
      simp [Frame.detects, hf, he]

theorem foldl_spinOnce_live (pre : List Frame) :
    ∀ u : PoseDetector, u.mCameraSubscriber = some .imageCallback → u.mSkipCount = 1 →
      (pre.foldl spinOnce u).mSuccessfulDetection = (u.mSuccessfulDetection || pre.any Frame.detects) ∧
      (pre.foldl spinOnce u).mValidPose = (u.mValidPose || pre.any Frame.detects) := by
  induction pre with
  | nil => intro u _ _; simp
  | cons f rest ih =>
    intro u hsub hskip
    have hspin : u.spinOnce f = u.imageCallback f := by
      unfold spinOnce
      rw [hsub]
    have hstep := imageCallback_skip_one u f hskip
    have hrec := ih (u.imageCallback f) (by rw [imageCallback_mCameraSubscriber, hsub])
      (by rw [imageCallback_mSkipCount, hskip])
    rw [List.foldl_cons, hspin, hrec.1, hrec.2, hstep.1, hstep.2]
    simp [Bool.or_assoc]

theorem foldl_spinOnce_replay (pre : List Frame) :
    ∀ u : PoseDetector, u.mCameraSubscriber = some .imageDummyCallback →
      (pre.foldl spinOnce u).mSuccessfulDetection = (u.mSuccessfulDetection || !pre.isEmpty) ∧
      (pre.foldl spinOnce u).mValidPose = u.mValidPose := by
  induction pre with
  | nil => intro u _; simp
  | cons f rest ih =>
    intro u hsub
    have hspin : u.spinOnce f = u.imageDummyCallback f := by
      unfold spinOnce
      rw [hsub]
    obtain ⟨l, hl⟩ := imageDummyCallback_eq u f
    have hrec := ih (u.imageDummyCallback f) (by rw [hl]; exact hsub)
    rw [List.foldl_cons, hspin, hrec.1, hrec.2, hl]
    simp

/-- Counterexample to C8 as stated: the controller left by a first successful query is
unsubscribed with `mValidPose` true, and a second query begins its wait with `mValidPose`
still true; on a replay controller the wait ends on the first frame with `mValidPose`
still false. -/
theorem C8_validity_not_reset :
    demoAfterQuery.mCameraSubscriber = none ∧
    demoAfterQuery.mValidPose = true ∧
    (demoAfterQuery.compute_pose_state demoEnv []).mValidPose = true ∧
    (demoAfterQuery.compute_pose_state demoEnv []).mSuccessfulDetection = false ∧
    demoReplay.mCameraSubscriber = none ∧
    (demoReplay.compute_pose demoEnv [missFrame]).map (fun r => r.state.mValidPose) =
      some false := by
  decide

/-- C8, amended. The flag the wait of `compute_pose` resets and then polls is
`mSuccessfulDetection`, not the flag `mValidPose` that gates `publishTf` and
`publishMarker`. On a controller that is not subscribed the wait begins with
`mSuccessfulDetection` false and `mValidPose` at its prior value; the wait stops at the
first state of the run in which `mSuccessfulDetection` is true, and the call returns
exactly when there is one. On a live controller `mSuccessfulDetection` is false from the
start of the wait until the first frame with a detection, and until then `mValidPose`
keeps the value it had before the call; on a replay controller `mSuccessfulDetection` is
false until the first frame of any kind, and `mValidPose` never changes. -/
theorem C8_wait_flag (env : Env) (s : PoseDetector) (frames : List Frame)
    (hsub : s.mCameraSubscriber = none) :
    (s.compute_pose_state env []).mSuccessfulDetection = false ∧
    (s.compute_pose_state env []).mValidPose = s.mValidPose ∧
    (∃ pre : List Frame,
      frames = pre ++ (waitLoop (s.beginWait env) frames).2 ∧
      (waitLoop (s.beginWait env) frames).1 = pre.foldl spinOnce (s.beginWait env) ∧
      (∀ p : List Frame, p <+: pre → p ≠ pre →
        (p.foldl spinOnce (s.beginWait env)).mSuccessfulDetection = false) ∧
      ((waitLoop (s.beginWait env) frames).1.mSuccessfulDetection = false →
        (waitLoop (s.beginWait env) frames).2 = [])) ∧
    (s.compute_pose env frames).isSome =
      (waitLoop (s.beginWait env) frames).1.mSuccessfulDetection ∧
    (s.mReadPoseFromFile = false →
      (frames.foldl spinOnce (s.beginWait env)).mSuccessfulDetection =
        frames.any Frame.detects ∧
      (frames.foldl spinOnce (s.beginWait env)).mValidPose =
        (s.mValidPose || frames.any Frame.detects)) ∧
    (s.mReadPoseFromFile = true →
      (frames.foldl spinOnce (s.beginWait env)).mSuccessfulDetection = !frames.isEmpty ∧
      (frames.foldl spinOnce (s.beginWait env)).mValidPose = s.mValidPose) := by
  have hb := beginWait_eq env s
  rw [compute_pose_state_nil env s hsub]
  refine ⟨by rw [hb], by rw [hb], waitLoop_spec frames _, ?_, ?_, ?_⟩
  rotate_left 2
  · intro hreplay
    have h := foldl_spinOnce_replay frames (s.beginWait env) (by rw [hb, hreplay]; rfl)
    rw [h.1, h.2, hb]
    simp
  · unfold compute_pose
    simp only [hsub, Option.isNone_none, if_true]
    cases (waitLoop (s.beginWait env) frames).1.mSuccessfulDetection <;> simp
  · intro hlive
    have h := foldl_spinOnce_live frames (s.beginWait env) (by rw [hb, hlive]; rfl) (by rw [hb])
    rw [h.1, h.2, hb]
    simp

/-- Witness for C8: a second query on the controller left by a first one, served by a
miss followed by a detection. -/
theorem C8_wait_flag_witness :
    demoAfterQuery.mCameraSubscriber = none ∧
    (demoAfterQuery.compute_pose_state demoEnv []).mSuccessfulDetection = false ∧
    (demoAfterQuery.compute_pose_state demoEnv []).mValidPose = demoAfterQuery.mValidPose ∧
    (demoAfterQuery.compute_pose demoEnv [missFrame, hitFrame]).isSome = true :=
  have h := C8_wait_flag demoEnv demoAfterQuery [missFrame, hitFrame] (by decide)
  ⟨by decide, h.1, h.2.1, h.2.2.2.1.trans (by decide)⟩

/-! ## C9: the mode only moves to CAMERA -/

theorem imageCallback_mPose2Compute (s : PoseDetector) (f : Frame) :
    (s.imageCallback f).mPose2Compute = s.mPose2Compute := by
  rw [imageCallback_eq]
  split
  · rw [(processFrame_same _ f).mPose2Compute]
  · rfl

theorem spinOnce_mPose2Compute (s : PoseDetector) (f : Frame) :
    (s.spinOnce f).mPose2Compute = s.mPose2Compute := by
  unfold spinOnce
  split
  · rfl
  · exact imageCallback_mPose2Compute s f
  · obtain ⟨l, hl⟩ := imageDummyCallback_eq s f
    rw [hl]

/-- A property that holds when the wait begins, survives every delivered frame and the
shutdown of the subscriber, holds in the state `compute_pose` reaches. -/
theorem compute_pose_state_induct (I : PoseDetector → Prop) (env : Env) (s : PoseDetector)
    (frames : List Frame) (h0 : I s) (hb : I (s.beginWait env))
    (hstep : ∀ (u : PoseDetector) (f : Frame), I u → I (u.spinOnce f))
    (hend : ∀ u : PoseDetector, I u → I { u with mCameraSubscriber := none }) :
    I (s.compute_pose_state env frames) := by
  have hfold : ∀ (pre : List Frame) (u : PoseDetector), I u → I (pre.foldl spinOnce u) := by
    intro pre
    induction pre with
    | nil => intro u hu; exact hu
    | cons f rest ih => intro u hu; exact ih _ (hstep u f hu)
  obtain ⟨pre, -, h2, -, -⟩ := waitLoop_spec frames (s.beginWait env)
  have hw : I (waitLoop (s.beginWait env) frames).1 := by
    rw [h2]
    exact hfold pre _ hb
  unfold compute_pose_state
  dsimp only
  split
  · split
    · exact hend _ hw
    · exact hw
  · exact h0

theorem apply_mPose2Compute (env : Env) (s : PoseDetector) (op : Op) :
    (op.apply env s).mPose2Compute =
      (match op with
        | .computeCameraPose => Pose2Compute.CAMERA
        | _ => s.mPose2Compute) := by
  cases op with
  | subscribe =>
    show (s.subscribe env).mPose2Compute = _
    unfold subscribe
    split <;> rfl
  | initCheckerboard c b u p => rfl
  | initLinks b f => rfl
  | initMarkerNS n => rfl
  | initPoseFile p => rfl
  | initSkipCount n => rfl
  | initService n =>
    show (s.initService n).mPose2Compute = _
    unfold initService
    split <;> rfl
  | computeCameraPose => rfl
  | compute_pose frames =>
    show (s.compute_pose_state env frames).mPose2Compute = s.mPose2Compute
    apply compute_pose_state_induct (fun u => u.mPose2Compute = s.mPose2Compute)
    · rfl
    · rw [beginWait_eq]
    · intro u f hu
      rw [spinOnce_mPose2Compute, hu]
    · intro u hu
      exact hu
  | frame f => exact spinOnce_mPose2Compute s f
  | imageCallback f => exact imageCallback_mPose2Compute s f
  | imageDummyCallback f =>
    obtain ⟨l, hl⟩ := imageDummyCallback_eq s f
    show (s.imageDummyCallback f).mPose2Compute = _
    rw [hl]
  | publishTf =>
    show s.publishTf.mPose2Compute = _
    rw [publishTf_eq]
  | publishMarker =>
    show s.publishMarker.mPose2Compute = _
    rw [publishMarker_eq]

theorem run_camera (env : Env) (ops : List Op) :
    ∀ s : PoseDetector, s.mPose2Compute = .CAMERA → (run env s ops).mPose2Compute = .CAMERA := by
  induction ops with
  | nil => intro s h; exact h
  | cons op rest ih =>
    intro s h
    apply ih
    rw [apply_mPose2Compute]
    cases op <;> first | rfl | exact h

/-- C9. The constructor leaves the mode at BOARD; `computeCameraPose` sets it to CAMERA, is
idempotent and changes nothing else; every other operation leaves the mode as it is. So a
controller whose mode is CAMERA is in mode CAMERA after every sequence of operations. -/
theorem C9_mode_one_way (env : Env) (s : PoseDetector) (op : Op) (ops : List Op)
    (image_topic : String) (publish_tf_link publish_rviz_marker read_pose_file
      drawDebugImage : Bool) (pose0 : PoseD) (countType : IntType) :
    (PoseDetector.new image_topic publish_tf_link publish_rviz_marker read_pose_file
      drawDebugImage pose0 countType).mPose2Compute = .BOARD ∧
    s.computeCameraPose = { s with mPose2Compute := .CAMERA } ∧
    s.computeCameraPose.computeCameraPose = s.computeCameraPose ∧
    (op.apply env s).mPose2Compute =
      (match op with
        | .computeCameraPose => Pose2Compute.CAMERA
        | _ => s.mPose2Compute) ∧
    (s.mPose2Compute = .CAMERA → (run env s ops).mPose2Compute = .CAMERA) :=
  ⟨rfl, rfl, rfl, apply_mPose2Compute env s op, run_camera env ops s⟩

/-- Witness for C9: a camera-mode controller taken through setters, a subscription, frames
and two queries. -/
theorem C9_mode_one_way_witness :
    demoCamera.mPose2Compute = .CAMERA ∧
    (run demoEnv demoCamera
      [Op.initSkipCount 3, Op.compute_pose [missFrame, hitFrame], Op.subscribe,
        Op.frame hitFrame, Op.imageDummyCallback missFrame, Op.publishTf,
        Op.compute_pose []]).mPose2Compute = .CAMERA :=
  ⟨rfl,
    (C9_mode_one_way demoEnv demoCamera Op.subscribe
      [Op.initSkipCount 3, Op.compute_pose [missFrame, hitFrame], Op.subscribe,
        Op.frame hitFrame, Op.imageDummyCallback missFrame, Op.publishTf, Op.compute_pose []]
      "image" true true false false unitXPose IntType.int32).2.2.2.2 rfl⟩

/-! ## C10: replay mode -/

theorem publications_append (l m : List Effect) :
    publications (l ++ m) = publications l ++ publications m := by
  unfold publications
  rw [List.filter_append]

theorem replay_new (image_topic : String) (publish_tf_link publish_rviz_marker
    drawDebugImage : Bool) (pose0 : PoseD) (countType : IntType) :
    ReplayInv (PoseDetector.new image_topic publish_tf_link publish_rviz_marker true
      drawDebugImage pose0 countType) := by
  refine ⟨rfl, rfl, by simp [PoseDetector.new], ?_⟩
  unfold PoseDetector.new publications
  cases publish_rviz_marker <;> cases drawDebugImage <;> rfl

theorem replay_imageDummyCallback (s : PoseDetector) (f : Frame) (h : s.mValidPose = false) :
    s.imageDummyCallback f = { s with mTime := f.stamp, mSuccessfulDetection := true } := by
  unfold imageDummyCallback
  simp only [publishTf_eq, publishMarker_eq, h, Bool.and_false, Bool.false_eq_true, if_false,
    List.append_nil]

theorem replay_spinOnce (s : PoseDetector) (f : Frame) (h : ReplayInv s) :
    ReplayInv (s.spinOnce f) := by
  unfold spinOnce
  split
  · exact h
  · rename_i hc
    exact absurd hc h.callback
  · rw [replay_imageDummyCallback s f h.invalid]
    exact ⟨h.replay, h.invalid, h.callback, h.silent⟩

theorem beginWait_replay (env : Env) (s : PoseDetector) (h : s.mReadPoseFromFile = true) :
    s.beginWait env =
      { s with
        mCameraSubscriber := some .imageDummyCallback
        mPose := env.read s.mPoseFile s.mPose
        mSuccessfulDetection := false
        mSkipCount := 1 } := by
  unfold beginWait subscribe
  rw [if_pos h]

theorem publishTf_invalid (s : PoseDetector) (h : s.mValidPose = false) : s.publishTf = s := by
  unfold publishTf
  rw [h]
  simp

theorem publishMarker_invalid (s : PoseDetector) (h : s.mValidPose = false) :
    s.publishMarker = s := by
  unfold publishMarker
  rw [h]
  simp

theorem replay_beginWait (env : Env) (s : PoseDetector) (h : ReplayInv s) :
    ReplayInv (s.beginWait env) := by
  rw [beginWait_replay env s h.replay]
  exact ⟨h.replay, h.invalid, by simp, h.silent⟩

theorem replay_apply (env : Env) (s : PoseDetector) (op : Op) (h : ReplayInv s)
    (hop : op.isImageCallback = false) : ReplayInv (op.apply env s) := by
  cases op with
  | subscribe =>
    show ReplayInv (s.subscribe env)
    unfold subscribe
    rw [if_pos h.replay]
    exact ⟨h.replay, h.invalid, by simp, h.silent⟩
  | initCheckerboard c b u p => exact ⟨h.replay, h.invalid, h.callback, h.silent⟩
  | initLinks b f => exact ⟨h.replay, h.invalid, h.callback, h.silent⟩
  | initMarkerNS n => exact ⟨h.replay, h.invalid, h.callback, h.silent⟩
  | initPoseFile p => exact ⟨h.replay, h.invalid, h.callback, h.silent⟩
  | initSkipCount n => exact ⟨h.replay, h.invalid, h.callback, h.silent⟩
  | initService n =>
    show ReplayInv (s.initService n)
    unfold initService
    split
    · exact h
    · refine ⟨h.replay, h.invalid, h.callback, ?_⟩
      show publications (s.log ++ [Effect.advertiseService n]) = []
      rw [publications_append, h.silent]
      rfl
  | computeCameraPose => exact ⟨h.replay, h.invalid, h.callback, h.silent⟩
  | compute_pose frames =>
    show ReplayInv (s.compute_pose_state env frames)
    apply compute_pose_state_induct ReplayInv env s frames h (replay_beginWait env s h)
    · exact fun u f hu => replay_spinOnce u f hu
    · intro u hu
      exact ⟨hu.replay, hu.invalid, by simp, hu.silent⟩
  | frame f => exact replay_spinOnce s f h
  | imageCallback f => cases hop
  | imageDummyCallback f =>
    show ReplayInv (s.imageDummyCallback f)
    rw [replay_imageDummyCallback s f h.invalid]
    exact ⟨h.replay, h.invalid, h.callback, h.silent⟩
  | publishTf =>
    show ReplayInv s.publishTf
    rw [publishTf_invalid s h.invalid]
    exact h
  | publishMarker =>
    show ReplayInv s.publishMarker
    rw [publishMarker_invalid s h.invalid]
    exact h

theorem replay_run (env : Env) (ops : List Op) :
    ∀ s : PoseDetector, ReplayInv s → (∀ op ∈ ops, op.isImageCallback = false) →
      ReplayInv (run env s ops) := by
  induction ops with
  | nil => intro s h _; exact h
  | cons op rest ih =>
    intro s h hops
    exact ih _ (replay_apply env s op h (hops op (List.mem_cons_self _ _)))
      (fun o ho => hops o (List.mem_cons_of_mem _ ho))

theorem replay_query (env : Env) (s : PoseDetector) (f : Frame) (rest : List Frame)
    (h : ReplayInv s) (hsub : s.mCameraSubscriber = none) :
    s.compute_pose env (f :: rest) =
      some
        { ret := true
          resp :=
            { position :=
                ⟨(env.read s.mPoseFile s.mPose).x, (env.read s.mPoseFile s.mPose).y,
                  (env.read s.mPoseFile s.mPose).z⟩
              orientation := (env.read s.mPoseFile s.mPose).quaterion }
          state :=
            { s with
              mPose := env.read s.mPoseFile s.mPose
              mSkipCount := 1
              mTime := f.stamp
              mSuccessfulDetection := true }
          pending := rest } := by
  have hb := beginWait_replay env s h.replay
  have hspin : (s.beginWait env).spinOnce f =
      { s with
        mCameraSubscriber := some .imageDummyCallback
        mPose := env.read s.mPoseFile s.mPose
        mSkipCount := 1
        mTime := f.stamp
        mSuccessfulDetection := true } := by
    rw [hb]
    unfold spinOnce
    dsimp only
    exact replay_imageDummyCallback _ f h.invalid
  have hw : waitLoop (s.beginWait env) (f :: rest) = ((s.beginWait env).spinOnce f, rest) := by
    rw [waitLoop_step _ f rest (by rw [hb]), waitLoop_done _ rest (by rw [hspin])]
  unfold compute_pose
  simp only [hsub, Option.isNone_none, if_true, hw, hspin, response]

/-- C10. Let `s` be the state a controller constructed with `read_pose_file` true reaches
by a sequence of operations in which `imageCallback` is never called directly (frames only
arrive through the subscription). Every subscription of `s` registers `imageDummyCallback`,
and `subscribe` and `imageDummyCallback` leave `mValidPose` alone on every state; so in `s`
the flag `mValidPose` is false, nothing has been published, and `publishTf` and
`publishMarker` are no-ops, whatever the two publish flags are. A query on `s`, when `s` is
not subscribed, returns on the first frame with the pose read from the pose file. -/
theorem C10_replay_never_publishes (env : Env) (image_topic : String)
    (publish_tf_link publish_rviz_marker drawDebugImage : Bool) (pose0 : PoseD)
    (countType : IntType) (ops : List Op) (s t : PoseDetector) (f : Frame) (rest : List Frame)
    (hs : s = run env (PoseDetector.new image_topic publish_tf_link publish_rviz_marker true
      drawDebugImage pose0 countType) ops)
    (hops : ∀ op ∈ ops, op.isImageCallback = false) :
    (s.subscribe env).mCameraSubscriber = some .imageDummyCallback ∧
    s.mCameraSubscriber ≠ some .imageCallback ∧
    (t.subscribe env).mValidPose = t.mValidPose ∧
    (t.imageDummyCallback f).mValidPose = t.mValidPose ∧
    s.mValidPose = false ∧
    publications s.log = [] ∧
    s.publishTf = s ∧
    s.publishMarker = s ∧
    (s.mCameraSubscriber = none →
      ∃ r : Reply, s.compute_pose env (f :: rest) = some r ∧
        r.ret = true ∧
        r.pending = rest ∧
        r.state.mValidPose = false ∧
        r.state.mPose = env.read s.mPoseFile s.mPose ∧
        r.resp.position =
          ⟨(env.read s.mPoseFile s.mPose).x, (env.read s.mPoseFile s.mPose).y,
            (env.read s.mPoseFile s.mPose).z⟩ ∧
        r.resp.orientation = (env.read s.mPoseFile s.mPose).quaterion) := by
  have hinv := replay_run env ops _
    (replay_new image_topic publish_tf_link publish_rviz_marker drawDebugImage pose0 countType)
    hops
  rw [← hs] at hinv
  refine ⟨?_, hinv.callback, ?_, ?_, hinv.invalid, hinv.silent, publishTf_invalid s hinv.invalid,
    publishMarker_invalid s hinv.invalid, ?_⟩
  · unfold subscribe
    rw [if_pos hinv.replay]
  · unfold subscribe
    split <;> rfl
  · obtain ⟨l, hl⟩ := imageDummyCallback_eq t f
    rw [hl]
  · intro hsub
    exact ⟨_, replay_query env s f rest hinv hsub, rfl, rfl, hinv.invalid, rfl, rfl, rfl⟩

/-- Witness for C10: a replay controller with both publishers enabled that is queried,
subscribed, fed frames and queried again. -/
theorem C10_replay_never_publishes_witness :
    (∀ op ∈ [Op.initPoseFile "pose.yml", Op.compute_pose [hitFrame], Op.subscribe,
        Op.frame hitFrame, Op.frame missFrame, Op.compute_pose []],
      op.isImageCallback = false) ∧
    (run demoEnv demoReplay
      [Op.initPoseFile "pose.yml", Op.compute_pose [hitFrame], Op.subscribe,
        Op.frame hitFrame, Op.frame missFrame, Op.compute_pose []]).mValidPose = false ∧
    publications (run demoEnv demoReplay
      [Op.initPoseFile "pose.yml", Op.compute_pose [hitFrame], Op.subscribe,
        Op.frame hitFrame, Op.frame missFrame, Op.compute_pose []]).log = [] :=
  have h := C10_replay_never_publishes demoEnv "image" true true false ⟨⟨0, 0, 0⟩, Quat.identity⟩
    IntType.int32
    [Op.initPoseFile "pose.yml", Op.compute_pose [hitFrame], Op.subscribe,
      Op.frame hitFrame, Op.frame missFrame, Op.compute_pose []]
    (run demoEnv demoReplay
      [Op.initPoseFile "pose.yml", Op.compute_pose [hitFrame], Op.subscribe,
        Op.frame hitFrame, Op.frame missFrame, Op.compute_pose []])
    demoReplay hitFrame [] rfl (by decide)
  ⟨by decide, h.2.2.2.2.1, h.2.2.2.2.2.1⟩

end CheckerboardDetection
